import Mathlib

/-! Verification development for the notes-storage backend: a shallow
embedding of the query-construction layer (db/table.py), the tri-state
entity conversion (utils/convert.py), the note repositories and facade
(db/repos/note/), and the search strategies
(db/repos/note/search_strategy.py), together with proofs of the
specified properties. -/

set_option autoImplicit false

namespace NotesBackend

/-- Inductive model of the Python runtime values that flow through the
query layer: None, the UNDEFINED sentinel from api.undefined, booleans,
integers, strings, lists, dicts and dataclass instances. Timestamps and
numeric scores are modelled as integers; floating-point vector contents
are abstracted behind the vector-literal strings the code stores. -/
inductive Value where
  | vNone
  | vUndefined
  | vBool (b : Bool)
  | vInt (n : Int)
  | vStr (s : String)
  | vList (xs : List Value)
  | vDict (xs : List (String × Value))
  | vDataclass (fields : List (String × Value))
  deriving Repr

mutual

/-- Structural equality test on values (Python `==` restricted to the
value shapes above). -/
def Value.beq : Value → Value → Bool
  | .vNone, .vNone => true
  | .vUndefined, .vUndefined => true
  | .vBool a, .vBool b => a == b
  | .vInt a, .vInt b => a == b
  | .vStr a, .vStr b => a == b
  | .vList xs, .vList ys => Value.beqList xs ys
  | .vDict xs, .vDict ys => Value.beqPairs xs ys
  | .vDataclass xs, .vDataclass ys => Value.beqPairs xs ys
  | _, _ => false

/-- Elementwise equality of value lists. -/
def Value.beqList : List Value → List Value → Bool
  | [], [] => true
  | x :: xs, y :: ys => Value.beq x y && Value.beqList xs ys
  | _, _ => false

/-- Elementwise equality of keyed value lists. -/
def Value.beqPairs : List (String × Value) → List (String × Value) → Bool
  | [], [] => true
  | (k, v) :: xs, (l, w) :: ys => k == l && Value.beq v w && Value.beqPairs xs ys
  | _, _ => false

end

instance : BEq Value := ⟨Value.beq⟩

/-- Exception classes raised by the embedded code paths. -/
inductive PyError where
  | assertionError
  | stopIteration
  | typeError (msg : String)
  | nameError (name : String)
  | valueError (msg : String)
  | runtimeError (msg : String)
  deriving Repr, DecidableEq

/-- Python truthiness of a value, as used by checks such as
`if where:` and `if note.content:`. Modelled from the spec: the
UNDEFINED sentinel of the (missing) api.undefined module is falsy, so
an unspecified field never counts as supplied text. -/
def Value.truthy : Value → Bool
  | .vNone => false
  | .vUndefined => false
  | .vBool b => b
  | .vInt n => n != 0
  | .vStr s => !s.isEmpty
  | .vList xs => !xs.isEmpty
  | .vDict xs => !xs.isEmpty
  | .vDataclass _ => true

/-- String conversion used by f-string interpolation of field values.
Only string fields are interpolated on the paths the claims exercise;
container values are abstracted. -/
def Value.pyStr : Value → String
  | .vNone => "None"
  | .vUndefined => "UNDEFINED"
  | .vBool b => if b then "True" else "False"
  | .vInt n => toString n
  | .vStr s => s
  | .vList _ => "<list>"
  | .vDict _ => "<dict>"
  | .vDataclass _ => "<dataclass>"

/-- SQL equality `column = $n` as the store evaluates it: NULL compares
unequal to everything (SQL three-valued logic collapsed to false for a
WHERE filter), other values compare structurally. -/
def sqlEq (a b : Value) : Bool :=
  match a, b with
  | .vNone, _ => false
  | _, .vNone => false
  | a, b => a == b

/-! ## db/table.py: the generic Table accessor -/

/-- Placeholder/column pairs iterated by `Table.create_where_statement`
(table.py line 739): `zip(range(dollar_start, dollar_start+len(columns)+1), columns)`.
The range holds one more element than `columns`, so `zip` truncates to
`columns.length` pairs. -/
def wherePairs (columns : List String) (dollar_start : Nat) : List (Nat × String) :=
  (List.range' dollar_start (columns.length + 1)).zip columns

/-- Model of `Table.create_where_statement` (table.py lines 736-741):
joins one `column=$i` term per column with AND, starting the dollar
indices at `dollar_start`, then cuts the leading four characters
(the first "AND "). -/
def create_where_statement (columns : List String) (dollar_start : Nat := 1) : String :=
  ((wherePairs columns dollar_start).foldl
    (fun acc p =>
      acc ++ (if 0 < p.1 then "AND " else "") ++ p.2 ++ "=$" ++ toString p.1 ++ " ")
    "").drop 4

/-- SET clause built by `Table.update` (table.py line 580): pairs the
numbers yielded by `num_gen = range(1, 100)` with the set columns. -/
def updateSetClause (set_fields : List (String × Value)) : String :=
  ", ".intercalate
    (((List.range' 1 set_fields.length).zip (set_fields.map Prod.fst)).map
      (fun p => p.2 ++ "=$" ++ toString p.1))

/-- Model of `Table.update` (table.py lines 560-592). A successful
result is the pair of the SQL text and the positional parameter list
submitted to the store via `db.execute`.

The placeholder source is `num_gen = (num for num in range(1, 100))`:
building the SET clause zips it against the `n` set columns, and the
zip consumes one extra number while probing for a further column, so
`n + 1` numbers have been yielded when the join finishes. The following
`next_ = next(num_gen) - 1` therefore needs number `n + 2` to exist in
`range(1, 100)` — a StopIteration escapes for `n ≥ 98` — and evaluates
to `n + 1`, the WHERE-clause starting index. No emptiness check is made
on `where`: an empty map yields an empty WHERE clause that is still
submitted to the store. -/
def tableUpdate (name : String) (set_fields where_fields : List (String × Value))
    (returning : String := "*") : Except PyError (String × List Value) :=
  let n := set_fields.length
  if n + 2 ≤ 99 then
    let next_ := n + 1
    let sql :=
      "UPDATE " ++ name ++ " \n" ++
      "SET " ++ updateSetClause set_fields ++ " \n" ++
      "WHERE " ++ create_where_statement (where_fields.map Prod.fst) next_ ++ "\n" ++
      (if returning ≠ "" then "RETURNING " ++ returning ++ " \n" else "")
    .ok (sql, set_fields.map Prod.snd ++ where_fields.map Prod.snd)
  else
    .error .stopIteration

/-- Model of `Table.delete` (table.py lines 594-628). A truthy `where`
dict replaces `columns`/`matching_values`; the bare
`assert columns and matching_values` fails (AssertionError) when either
is None or empty — in particular when `where` is the empty dict and no
columns were given. -/
def tableDelete (name : String) (columns : Option (List String))
    (matching_values : Option (List Value))
    (where_fields : Option (List (String × Value))) :
    Except PyError (String × List Value) :=
  let cv : Option (List String) × Option (List Value) :=
    match where_fields with
    | some w => if w.isEmpty then (columns, matching_values)
                else (some (w.map Prod.fst), some (w.map Prod.snd))
    | none => (columns, matching_values)
  match cv with
  | (some cs, some vs) =>
    if cs.isEmpty || vs.isEmpty then .error .assertionError
    else
      .ok ("DELETE FROM " ++ name ++ "\nWHERE " ++ create_where_statement cs 1
            ++ "\nRETURNING *", vs)
  | _ => .error .assertionError

/-- Model of `Table.select` (table.py lines 635-680); same `where`
handling and bare assertion as `tableDelete`, then
`SELECT <select> FROM <name> WHERE <stmt> [ORDER BY <order_by>]` with
`additional_values` appended after the matching values. -/
def tableSelect (name : String) (columns : Option (List String))
    (matching_values : Option (List Value))
    (additional_values : Option (List Value)) (order_by : Option String)
    (where_fields : Option (List (String × Value))) (select : String := "*") :
    Except PyError (String × List Value) :=
  let cv : Option (List String) × Option (List Value) :=
    match where_fields with
    | some w => if w.isEmpty then (columns, matching_values)
                else (some (w.map Prod.fst), some (w.map Prod.snd))
    | none => (columns, matching_values)
  match cv with
  | (some cs, some vs) =>
    if cs.isEmpty || vs.isEmpty then .error .assertionError
    else
      let sql := "SELECT " ++ select ++ " FROM " ++ name ++ "\nWHERE "
                  ++ create_where_statement cs 1
      let sql := match order_by with
                 | some o => sql ++ "\nORDER BY " ++ o
                 | none => sql
      let vs := match additional_values with
                | some extra => if extra.isEmpty then vs else vs ++ extra
                | none => vs
      .ok (sql, vs)
  | _ => .error .assertionError

/-! ## utils/convert.py: tri-state entity conversion -/

/-- Identity test against the UNDEFINED sentinel (`value is UNDEFINED`). -/
def Value.isUndefined : Value → Bool
  | .vUndefined => true
  | _ => false

mutual

/-- Model of `_asdict_inner` (convert.py lines 34-59): recurse into
dataclasses, sequences and mappings; leave every other value as is.
Tuples and namedtuples follow the same elementwise rule as lists. -/
def asdictInner : Value → Value
  | .vDataclass fs => .vDict (asdictFields fs)
  | .vList xs => .vList (asdictList xs)
  | .vDict xs => .vDict (asdictDict xs)
  | v => v

/-- Dataclass branch of `_asdict_inner`: drop every field whose value is
the UNDEFINED sentinel and recurse into the kept values. -/
def asdictFields : List (String × Value) → List (String × Value)
  | [] => []
  | (k, v) :: rest =>
    if v.isUndefined then asdictFields rest
    else (k, asdictInner v) :: asdictFields rest

/-- Sequence branch of `_asdict_inner`: elementwise recursion, keeping
every element. -/
def asdictList : List Value → List Value
  | [] => []
  | v :: rest => asdictInner v :: asdictList rest

/-- Mapping branch of `_asdict_inner`: drop entries whose value is the
UNDEFINED sentinel and recurse into the kept values. -/
def asdictDict : List (String × Value) → List (String × Value)
  | [] => []
  | (k, v) :: rest =>
    if v.isUndefined then asdictDict rest
    else (k, asdictInner v) :: asdictDict rest

end

/-- Model of `asdict` (convert.py lines 6-31): only dataclass instances
are accepted; the result is the recursively converted field map. -/
def asdict : Value → Except PyError (List (String × Value))
  | .vDataclass fs => .ok (asdictFields fs)
  | _ => .error (.typeError "asdict() should be called on dataclass instances")

/-! ## Entities (db/entities/note/) and the tri-state field wrapper -/

/-- Modelled from the spec: the api.undefined module is not under src/.
Per the spec (sections 3 and 9), a field is either Unspecified or
carries a concrete payload; this wrapper marks fields such as the
entity lists whose payload is not a flat `Value`. -/
inductive UndefinedOr (α : Type) where
  | undefined
  | val (a : α)
  deriving Repr

/-- Reflects `NoteEmbeddingEntity` (db/entities/note/embedding.py). -/
structure NoteEmbeddingEntity where
  note_id : Value
  model : Value
  embedding : Value
  deriving Repr

/-- Reflects `NotePermissionEntity` (db/entities/note/permission.py). -/
structure NotePermissionEntity where
  note_id : Value
  role_id : Value
  deriving Repr

/-- Reflects `NoteEntity` (db/entities/note/metadata.py). -/
structure NoteEntity where
  note_id : Value
  title : Value
  updated_at : Value
  author_id : Value
  content : Value
  embeddings : UndefinedOr (List NoteEmbeddingEntity)
  permissions : UndefinedOr (List NotePermissionEntity)
  deriving Repr

/-- Row returned by the store: an ordered mapping from column name to
value, as an asyncpg Record behaves on the paths modelled here. -/
abbrev Record := List (String × Value)

/-- Python `record.get(key, default)`. -/
def recordGet (r : Record) (k : String) (default : Value := .vUndefined) : Value :=
  match r.find? (fun p => p.1 == k) with
  | some p => p.2
  | none => default

/-- Model of `NoteEntity.from_record` (metadata.py lines 24-34). -/
def NoteEntity.from_record (r : Record) : NoteEntity :=
  { note_id := recordGet r "id", title := recordGet r "title",
    updated_at := recordGet r "updated_at",
    author_id := recordGet r "author_id", content := recordGet r "content",
    embeddings := .val [], permissions := .val [] }

/-! ## Store model and the embedding generator -/

/-- Modelled from the spec: one row of the persisted relation
note.content(id, title, content, author_id, updated_at); `id` is
assigned by the store. -/
structure ContentRow where
  id : Int
  title : Value
  content : Value
  author_id : Value
  updated_at : Value
  deriving Repr

/-- Modelled from the spec: one row of note.embedding(note_id, model,
embedding); the vector column holds the store-native vector literal. -/
structure EmbeddingRow where
  note_id : Int
  model : String
  embedding : String
  deriving Repr

/-- Modelled from the spec: one row of note.permission(note_id, role_id). -/
structure PermissionRow where
  note_id : Int
  role_id : Value
  deriving Repr

/-- Modelled from the spec: the storage engine is a black-box
execute/fetch capability over the three note relations. Rows are kept
in insertion order and `nextId` is the serial id the store will assign
to the next content row. -/
structure Store where
  contents : List ContentRow
  embeddings : List EmbeddingRow
  permissions : List PermissionRow
  nextId : Int
  deriving Repr

/-- Modelled from the spec: the embedding-model runtime is a black box
from text to a fixed-length vector plus an identifying model name.
`generateStr` composes `generate` with `tensor_to_str_vec`
(ai/embedding_generator.py), giving the store-native vector literal;
`str_vec_to_list` is referenced by the embedding repository but absent
from src/, so its parse of a stored literal is likewise abstract. -/
structure EmbeddingGenerator where
  generateStr : String → String
  model_name : String
  str_vec_to_list : String → Value

/-- Value of `Models.MINI_LM_L6_V2` (ai/embedding_generator.py), the
default embedding model identifier used by the semantic strategy. -/
def MINI_LM_L6_V2 : String := "sentence-transformers/all-MiniLM-L6-v2"

/-- Column projection of an embedding row, used to evaluate a
WHERE equality filter against note.embedding. -/
def EmbeddingRow.col (r : EmbeddingRow) : String → Option Value
  | "note_id" => some (.vInt r.note_id)
  | "model" => some (.vStr r.model)
  | "embedding" => some (.vStr r.embedding)
  | _ => none

/-- Column projection of a permission row. -/
def PermissionRow.col (r : PermissionRow) : String → Option Value
  | "note_id" => some (.vInt r.note_id)
  | "role_id" => some r.role_id
  | _ => none

/-- Modelled from the spec: the store evaluating the accessor-built
`WHERE c1=$1 AND c2=$2 AND ...` equality filter over one row. -/
def rowMatches (col : String → Option Value) (conds : List (String × Value)) : Bool :=
  conds.all fun kv =>
    match col kv.1 with
    | some v => sqlEq v kv.2
    | none => false

/-! ## Repositories (db/repos/note/) -/

/-- Model of `NoteEmbeddingPostgresRepo.insert` (embedding.py lines
109-131): generate the vector from title and content joined by a
newline, insert the row, and build the returned entity from the row the
store echoes back, parsing the embedding from its stored literal. -/
def embeddingRepoInsert (g : EmbeddingGenerator) (s : Store) (note_id : Int)
    (title content : String) : NoteEmbeddingEntity × Store :=
  let embedding_content := title ++ "\n" ++ content
  let embedding_str := g.generateStr embedding_content
  let row : EmbeddingRow := ⟨note_id, g.model_name, embedding_str⟩
  (⟨.vInt note_id, .vStr g.model_name, g.str_vec_to_list embedding_str⟩,
   { s with embeddings := s.embeddings ++ [row] })

/-- Model of `NoteEmbeddingPostgresRepo.select` (embedding.py lines
153-159): filter note.embedding by the asdict image of the filter
entity and rebuild entities from the raw rows (the embedding field
stays the stored literal on this path). -/
def embeddingRepoSelect (s : Store) (e : NoteEmbeddingEntity) :
    List NoteEmbeddingEntity :=
  let conds := asdictFields
    [("note_id", e.note_id), ("model", e.model), ("embedding", e.embedding)]
  (s.embeddings.filter (fun r => rowMatches r.col conds)).map
    (fun r => ⟨.vInt r.note_id, .vStr r.model, .vStr r.embedding⟩)

/-- Model of `NotePermissionPostgresRepo.select` (permission.py): filter
note.permission by the asdict image of the filter entity. -/
def permissionRepoSelect (s : Store) (p : NotePermissionEntity) :
    List NotePermissionEntity :=
  let conds := asdictFields [("note_id", p.note_id), ("role_id", p.role_id)]
  (s.permissions.filter (fun r => rowMatches r.col conds)).map
    (fun r => ⟨.vInt r.note_id, r.role_id⟩)

/-- Model of `NoteContentPostgresRepo.select_by_id` (content.py lines
185-194): fetch by id; a missing row raises RuntimeError (the NotFound
condition); a found row is rebuilt with the SQL id renamed to note_id
and empty embeddings and permissions. -/
def contentRepoSelectById (s : Store) (note_id : Int) : Except PyError NoteEntity :=
  match s.contents.find? (fun r => r.id == note_id) with
  | none => .error (.runtimeError ("Note with ID " ++ toString note_id ++ " not found"))
  | some r =>
    .ok { note_id := .vInt r.id, title := r.title, content := r.content,
          updated_at := r.updated_at, author_id := r.author_id,
          embeddings := .val [], permissions := .val [] }

/-! ## Note facade (db/repos/note/note.py) -/

/-- Model of `NoteRepoFacade.insert` (note.py lines 168-211). The store
is returned alongside the outcome because the content row is written
before the embeddings assertion can fail. Steps: (1) INSERT the content
row, capturing the store-assigned id; (2) assert the caller supplied no
embeddings (an empty list or the UNDEFINED sentinel), reset the list
and, when the content value is truthy, generate and insert exactly one
embedding row; (3) insert one permission row per supplied permission,
each stamped with the captured id (an UNDEFINED permissions field is
replaced by the empty list); (4) return the entity with the new id. -/
def facadeInsert (g : EmbeddingGenerator) (s : Store) (note : NoteEntity) :
    Store × Except PyError NoteEntity :=
  let note_id := s.nextId
  let row : ContentRow := ⟨note_id, note.title, note.content, note.author_id, note.updated_at⟩
  let s := { s with contents := s.contents ++ [row], nextId := s.nextId + 1 }
  match note.embeddings with
  | .val (_ :: _) => (s, .error .assertionError)
  | _ =>
    let es : List NoteEmbeddingEntity × Store :=
      if note.content.truthy then
        let es := embeddingRepoInsert g s note_id
          (if note.title.truthy then note.title.pyStr else "") note.content.pyStr
        ([es.1], es.2)
      else ([], s)
    let embeddings := es.1
    let s := es.2
    let ps : List NotePermissionEntity × Store :=
      match note.permissions with
      | .val ps =>
        (ps.map (fun p => { p with note_id := (.vInt note_id : Value) }),
         { s with permissions :=
            ps.foldl (fun acc p => acc ++ [⟨note_id, p.role_id⟩]) s.permissions })
      | .undefined => ([], s)
    (ps.2, .ok { note with
                  note_id := (.vInt note_id : Value),
                  embeddings := .val embeddings,
                  permissions := .val ps.1 })

/-- Truthiness of a NoteEntity instance: dataclasses define neither
__bool__ nor __len__, so every instance is truthy and the empty-result
branch of the facade fetch is unreachable for a found row. -/
def NoteEntity.truthy (_ : NoteEntity) : Bool := true

/-- Model of `NoteRepoFacade.select_by_id` (note.py lines 228-251):
fetch the content row — the content-repo RuntimeError for a missing id
propagates, there is no handler — then fetch the embeddings and
permissions of the note and attach them. -/
def facadeSelectById (s : Store) (note_id : Int) :
    Except PyError (Option NoteEntity) :=
  match contentRepoSelectById s note_id with
  | .error e => .error e
  | .ok record =>
    if record.truthy then
      let embeddings := embeddingRepoSelect s ⟨.vInt note_id, .vUndefined, .vUndefined⟩
      let permissions := permissionRepoSelect s ⟨.vInt note_id, .vUndefined⟩
      .ok (some { record with
                   embeddings := .val embeddings,
                   permissions := .val permissions })
    else .ok none

/-! ## Search strategies (db/repos/note/search_strategy.py)

Each strategy builds one fixed SQL text — with the limit, the offset
and, for the semantic strategy, the author id interpolated into it —
and submits it with its positional parameters through `db.fetch`. The
store round-trip is abstracted into a fetch capability from the
positional parameter list to the returned rows; the interpolated
values live in that capability. -/

/-- Model of `DateNoteSearchStrategy.search` (lines 84-99): fetch with
the author id as $1; zero rows yield the empty list, otherwise one
entity per row. -/
def dateSearch (fetch : List Value → List Record) (user_id : Int) :
    Except PyError (List NoteEntity) :=
  let records := fetch [.vInt user_id]
  if records.isEmpty then .ok []
  else .ok (records.map NoteEntity.from_record)

/-- Model of `WebNoteSearchStrategy.search` (lines 102-126): fetch with
the query text as $1 and the author id as $2; zero rows raise
RuntimeError, otherwise one entity per row. -/
def webSearch (fetch : List Value → List Record) (query : String) (user_id : Int) :
    Except PyError (List NoteEntity) :=
  let records := fetch [.vStr query, .vInt user_id]
  if records.isEmpty then
    .error (.runtimeError "Failed to fetch notes by exact title.")
  else .ok (records.map NoteEntity.from_record)

/-- Model of `FuzzyTitleContentSearchStrategy.search` (lines 129-144):
fetch with the query text as $1 and the author id as $2; zero rows
raise RuntimeError, otherwise one entity per row. -/
def fuzzySearch (fetch : List Value → List Record) (query : String) (user_id : Int) :
    Except PyError (List NoteEntity) :=
  let records := fetch [.vStr query, .vInt user_id]
  if records.isEmpty then
    .error (.runtimeError "Failed to fetch notes by fuzzy title/content.")
  else .ok (records.map NoteEntity.from_record)

/-- Model of `ContextNoteSearchStrategy.search` (lines 147-174): embed
the query text, fetch with the embedding literal as $1 and the default
model identifier as $2 (the author id is interpolated into the SQL
text, not passed as a parameter); zero rows raise RuntimeError,
otherwise one entity per row. -/
def contextSearch (g : EmbeddingGenerator) (fetch : List Value → List Record)
    (query : String) : Except PyError (List NoteEntity) :=
  let query_embedding_str := g.generateStr query
  let records := fetch [.vStr query_embedding_str, .vStr MINI_LM_L6_V2]
  if records.isEmpty then
    .error (.runtimeError "Failed to fetch notes by context.")
  else .ok (records.map NoteEntity.from_record)

/-! ## Store semantics of the four strategy queries -/

/-- Application of `LIMIT lim OFFSET off`: skip, then cap. -/
def applyLimitOffset {α : Type} (lim off : Int) (l : List α) : List α :=
  (l.drop off.toNat).take lim.toNat

/-- Insertion of an element into a list sorted by `le`. -/
def insertSorted {α : Type} (le : α → α → Bool) (a : α) : List α → List α
  | [] => [a]
  | b :: bs => if le a b then a :: b :: bs else b :: insertSorted le a bs

/-- Stable sort by `le` (insertion sort), modelling the ORDER BY step
of a query. -/
def sortBy {α : Type} (le : α → α → Bool) : List α → List α
  | [] => []
  | a :: as => insertSorted le a (sortBy le as)

/-- Record projection of a content row in the column order the strategy
queries SELECT: id, title, author_id, content, updated_at. -/
def ContentRow.record (c : ContentRow) : Record :=
  [("id", .vInt c.id), ("title", c.title), ("author_id", c.author_id),
   ("content", c.content), ("updated_at", c.updated_at)]

/-- Sort key for ORDER BY over a timestamp or score column: timestamps
and scores are modelled as integer values; anything else sorts as 0. -/
def Value.intKey : Value → Int
  | .vInt n => n
  | _ => 0

/-- Modelled from the spec: the storage engine executing the recency
query — the author rows only (`WHERE author_id = $1`), newest first,
then OFFSET and LIMIT. -/
def dateQueryExec (s : Store) (lim off : Int) (params : List Value) : List Record :=
  match params with
  | [.vInt uid] =>
    (applyLimitOffset lim off
      (sortBy (fun a b => b.updated_at.intKey ≤ a.updated_at.intKey)
        (s.contents.filter (fun c => sqlEq c.author_id (.vInt uid))))).map ContentRow.record
  | _ => []

/-- Modelled from the spec: the storage engine executing the lexical
query — author rows ($2) whose search vector matches the websearch
query ($1), ranked by ts_rank descending. The text-search match and
rank are black-box parameters of the engine. -/
def webQueryExec (s : Store) (lim off : Int) (tsMatch : String → ContentRow → Bool)
    (tsRank : String → ContentRow → Int) (params : List Value) : List Record :=
  match params with
  | [.vStr q, .vInt uid] =>
    (applyLimitOffset lim off
      (sortBy (fun a b => tsRank q b ≤ tsRank q a)
        (s.contents.filter (fun c =>
          sqlEq c.author_id (.vInt uid) && tsMatch q c)))).map ContentRow.record
  | _ => []

/-- Modelled from the spec: the storage engine executing the fuzzy
query — author rows ($2) ordered by trigram similarity of the query
($1) with title and content, descending. The similarity score is a
black-box parameter of the engine. -/
def fuzzyQueryExec (s : Store) (lim off : Int)
    (similarity : String → ContentRow → Int) (params : List Value) : List Record :=
  match params with
  | [.vStr q, .vInt uid] =>
    (applyLimitOffset lim off
      (sortBy (fun a b => similarity q b ≤ similarity q a)
        (s.contents.filter (fun c => sqlEq c.author_id (.vInt uid))))).map ContentRow.record
  | _ => []

/-- Modelled from the spec: the storage engine executing the semantic
query — note.embedding joined with note.content on the note id,
restricted to the designated model ($2) and to the author id that the
strategy interpolated into the SQL text, ordered by vector distance to
the query embedding literal ($1), ascending. The distance on two vector
literals is a black-box parameter of the engine. -/
def contextQueryExec (s : Store) (uid lim off : Int)
    (dist : String → String → Int) (params : List Value) : List Record :=
  match params with
  | [.vStr queryVec, .vStr model] =>
    let joined := s.embeddings.flatMap (fun e =>
      (s.contents.filter (fun c =>
        c.id == e.note_id && e.model == model
          && sqlEq c.author_id (.vInt uid))).map (fun c => (e, c)))
    (applyLimitOffset lim off
      (sortBy (fun a b =>
        dist a.1.embedding queryVec ≤ dist b.1.embedding queryVec) joined)).map
      (fun p => p.2.record ++ [("similarity", .vInt (dist p.1.embedding queryVec))])
  | _ => []

/-! ## search_notes dispatch (note.py lines 24-28 and 253-286) -/

/-- Reflects the `SearchType` enumeration (note.py lines 24-28). -/
inductive SearchType where
  | NO_SEARCH
  | FULL_TEXT_TITLE
  | FUZZY
  | CONTEXT
  deriving Repr, DecidableEq

/-- Enumeration member values of `SearchType`. -/
def SearchType.value : SearchType → Int
  | .NO_SEARCH => 1
  | .FULL_TEXT_TITLE => 2
  | .FUZZY => 3
  | .CONTEXT => 4

/-- The strategy classes search_strategy.py defines. -/
inductive StrategyClass where
  | dateStrategy
  | webStrategy
  | fuzzyStrategy
  | contextStrategy
  deriving Repr, DecidableEq

/-- Names bound in db/repos/note/search_strategy.py, with the class
each denotes. -/
def searchStrategyModuleDefs : List (String × StrategyClass) :=
  [("DateNoteSearchStrategy", .dateStrategy),
   ("WebNoteSearchStrategy", .webStrategy),
   ("FuzzyTitleContentSearchStrategy", .fuzzyStrategy),
   ("ContextNoteSearchStrategy", .contextStrategy)]

/-- Resolution of a class name against search_strategy.py: an unbound
name raises NameError (equivalently, importing it fails). -/
def resolveStrategyName (n : String) : Except PyError StrategyClass :=
  match searchStrategyModuleDefs.find? (fun p => p.1 == n) with
  | some p => .ok p.2
  | none => .error (.nameError n)

/-- Class name each branch of `NoteRepoFacade.search_notes` constructs
(note.py lines 267-283); `none` stands for any discriminator value
outside the enumeration, which the final branch rejects with
ValueError. -/
def searchNotesBranch : Option SearchType → Except PyError String
  | some .NO_SEARCH => .ok "ContextNoteSearchStrategy"
  | some .FULL_TEXT_TITLE => .ok "TitleLexemeNoteSearchStrategy"
  | some .FUZZY => .ok "FuzzyTitleContentSearchStrategy"
  | some .CONTEXT => .ok "ContextNoteSearchStrategy"
  | none => .error (.valueError "Unknown SearchType")

/-- Strategy class selected by search_notes once the branch name is
resolved against search_strategy.py. -/
def searchNotesSelectedClass (t : Option SearchType) : Except PyError StrategyClass :=
  match searchNotesBranch t with
  | .ok n => resolveStrategyName n
  | .error e => .error e

/-- Parameter names of `NoteSearchStrategy.__init__` after self
(search_strategy.py lines 15-27), all without defaults. -/
def noteSearchStrategyInitParams : List String :=
  ["db", "query", "limit", "offset", "user_id"]

/-- Parameter names of `ContextNoteSearchStrategy.__init__` after self
(search_strategy.py line 149). -/
def contextStrategyInitParams : List String :=
  noteSearchStrategyInitParams ++ ["generator"]

/-- Init parameter names of each strategy class: Date, Web and Fuzzy
inherit `NoteSearchStrategy.__init__`. -/
def StrategyClass.initParams : StrategyClass → List String
  | .contextStrategy => contextStrategyInitParams
  | _ => noteSearchStrategyInitParams

/-- Keyword names of `common_init_parameters` (note.py lines 261-266),
the only arguments search_notes passes besides `generator`. -/
def commonInitParameters : List String := ["db", "query", "limit", "offset"]

/-- Python keyword binding for a call f(**kwargs): a keyword outside
the parameter list, or a parameter without a default left unsupplied,
raises TypeError. Argument values do not influence binding, so only
the names are modelled. -/
def bindKwargs (params kwargs : List String) : Except PyError Unit :=
  if ¬ (kwargs.filter (fun k => ¬ params.contains k)).isEmpty then
    .error (.typeError "unexpected keyword argument")
  else
    let missing := params.filter (fun p => ¬ kwargs.contains p)
    if missing.isEmpty then .ok ()
    else .error (.typeError ("missing required arguments: " ++ ", ".intercalate missing))

/-- Model of the strategy-construction step of search_notes (note.py
lines 267-283): resolve the class the branch names, then bind the
supplied keywords — `common_init_parameters`, plus `generator` in the
two branches constructing the context strategy — against the init
parameters of that class. A successful result stands for a constructed
strategy; every failure happens before any store access. -/
def searchNotesConstruct (t : Option SearchType) : Except PyError StrategyClass :=
  match searchNotesSelectedClass t with
  | .error e => .error e
  | .ok c =>
    let kwargs := if c = .contextStrategy then commonInitParameters ++ ["generator"]
                  else commonInitParameters
    match bindKwargs c.initParams kwargs with
    | .error e => .error e
    | .ok _ => .ok c

/-! ## Auxiliary definitions for the statements below -/

/-- Test whether a construction outcome failed with a TypeError, the
missing-argument failure class. -/
def isTypeErrorResult : Except PyError StrategyClass → Bool
  | .error (.typeError _) => true
  | _ => false

/-- Permissions the caller supplied on a note, with the UNDEFINED
sentinel read as no permissions. -/
def NoteEntity.permsOrEmpty (n : NoteEntity) : List NotePermissionEntity :=
  match n.permissions with
  | .val ps => ps
  | .undefined => []

/-- Embedding text the facade hands to the embedding repository:
`note.title if note.title else ""` and the content value. -/
def NoteEntity.embTitle (n : NoteEntity) : String :=
  if n.title.truthy then n.title.pyStr else ""

/-- Concrete embedding generator instance used to evaluate theorems on
concrete inputs: it wraps the text in brackets as its vector literal
and carries the default model name. -/
def testGen : EmbeddingGenerator :=
  { generateStr := fun s => "[" ++ s ++ "]",
    model_name := MINI_LM_L6_V2,
    str_vec_to_list := fun _ => .vList [] }

/-! ## Shared lemmas -/

/-- Dropping the surplus element of the placeholder range does not
change the zip with the column list. -/
theorem zip_range'_extra (cols : List String) : ∀ d n : Nat, cols.length = n →
    (List.range' d (n + 1)).zip cols = (List.range' d n).zip cols := by
  induction cols with
  | nil =>
    intro d n h
    simp [List.zip_nil_right]
  | cons c cs ih =>
    intro d n h
    cases n with
    | zero => simp at h
    | succ m =>
      have hm : cs.length = m := by simpa using h
      simp only [List.range'_succ, List.zip_cons_cons, List.cons.injEq, true_and]
      rw [← List.range'_succ]
      exact ih (d + 1) m hm

/-- The placeholder indices of a WHERE clause starting at `d` are the
contiguous range `d, d+1, ...`, one per column. -/
theorem wherePairs_map_fst (columns : List String) (d : Nat) :
    (wherePairs columns d).map Prod.fst = List.range' d columns.length := by
  rw [wherePairs, zip_range'_extra columns d columns.length rfl,
      List.map_fst_zip]
  simp

/-- In a list with no duplicate keys, a key determines its value. -/
theorem assoc_nodup_unique {α β : Type} {l : List (α × β)}
    (hnd : (l.map Prod.fst).Nodup) {k : α} {a b : β}
    (ha : (k, a) ∈ l) (hb : (k, b) ∈ l) : a = b := by
  induction l with
  | nil => cases ha
  | cons p rest ih =>
    rw [List.map_cons, List.nodup_cons] at hnd
    rcases List.mem_cons.1 ha with h1 | h1 <;> rcases List.mem_cons.1 hb with h2 | h2
    · have h := h1.trans h2.symm
      simpa using h
    · exfalso
      rw [← h1] at hnd
      exact hnd.1 (List.mem_map.2 ⟨(k, b), h2, rfl⟩)
    · exfalso
      rw [← h2] at hnd
      exact hnd.1 (List.mem_map.2 ⟨(k, a), h1, rfl⟩)
    · exact ih hnd.2 h1 h2

/-- Searching an appended list skips a first part that matches nowhere. -/
theorem find?_append_of_none {α : Type} {l₁ l₂ : List α} {p : α → Bool}
    (h : ∀ x ∈ l₁, p x = false) : (l₁ ++ l₂).find? p = l₂.find? p := by
  induction l₁ with
  | nil => rfl
  | cons a as ih =>
    have ha := h a (List.mem_cons_self a as)
    simp [List.find?_cons, ha, ih (fun x hx => h x (List.mem_cons_of_mem a hx))]

/-- The permission insertion loop of the facade appends one row per
permission, in order. -/
theorem perm_foldl_append (nid : Int) :
    ∀ (ps : List NotePermissionEntity) (acc : List PermissionRow),
      ps.foldl (fun acc p => acc ++ [⟨nid, p.role_id⟩]) acc
        = acc ++ ps.map (fun p => ⟨nid, p.role_id⟩) := by
  intro ps
  induction ps with
  | nil => intro acc; simp
  | cons p rest ih => intro acc; simp [ih]

/-- An equality filter that holds against an integer pins the value. -/
theorem sqlEq_vInt {v : Value} {n : Int} (h : sqlEq v (.vInt n) = true) :
    v = .vInt n := by
  cases v with
  | vInt m => exact congrArg Value.vInt (eq_of_beq (h : (m == n) = true))
  | vNone => exact Bool.noConfusion h
  | vUndefined => exact Bool.noConfusion h
  | vBool b => exact Bool.noConfusion h
  | vStr s => exact Bool.noConfusion h
  | vList xs => exact Bool.noConfusion h
  | vDict xs => exact Bool.noConfusion h
  | vDataclass fs => exact Bool.noConfusion h

/-- Characterization of the dataclass branch of the conversion: keep
the non-UNDEFINED fields in order and convert their values. -/
theorem asdictFields_eq (fs : List (String × Value)) :
    asdictFields fs = (fs.filter (fun p => !p.2.isUndefined)).map
      (fun p => (p.1, asdictInner p.2)) := by
  induction fs with
  | nil => rfl
  | cons p rest ih =>
    obtain ⟨k, v⟩ := p
    cases hv : v.isUndefined with
    | true => simp [asdictFields, hv, ih, List.filter_cons]
    | false => simp [asdictFields, hv, ih, List.filter_cons]

/-- The sequence branch of the conversion is an elementwise map. -/
theorem asdictList_eq (xs : List Value) : asdictList xs = xs.map asdictInner := by
  induction xs with
  | nil => rfl
  | cons v rest ih => simp [asdictList, ih]

/-- The conversion never produces the UNDEFINED sentinel from a value
that is not itself the sentinel. -/
theorem asdictInner_ne_undefined : ∀ v : Value, v ≠ .vUndefined →
    asdictInner v ≠ .vUndefined
  | .vNone, _ => fun hc => Value.noConfusion hc
  | .vUndefined, h => absurd rfl h
  | .vBool _, _ => fun hc => Value.noConfusion hc
  | .vInt _, _ => fun hc => Value.noConfusion hc
  | .vStr _, _ => fun hc => Value.noConfusion hc
  | .vList _, _ => fun hc => Value.noConfusion hc
  | .vDict _, _ => fun hc => Value.noConfusion hc
  | .vDataclass _, _ => fun hc => Value.noConfusion hc

/-- Boolean and propositional views of the sentinel test agree. -/
theorem isUndefined_eq_false_iff {v : Value} :
    v.isUndefined = false ↔ v ≠ .vUndefined := by
  cases v <;> simp [Value.isUndefined]

/-- Keys of the converted field map form a sublist of the original
field names. -/
theorem asdictFields_keys_sublist (fs : List (String × Value)) :
    ((asdictFields fs).map Prod.fst).Sublist (fs.map Prod.fst) := by
  rw [asdictFields_eq]
  have h2 : ((fs.filter (fun p => !p.2.isUndefined)).map
        (fun p => (p.1, asdictInner p.2))).map Prod.fst
      = (fs.filter (fun p => !p.2.isUndefined)).map Prod.fst := by
    simp [List.map_map]
  rw [h2]
  exact (List.filter_sublist fs).map Prod.fst

/-- Sorting inserts exactly the given element. -/
theorem mem_insertSorted {α : Type} {le : α → α → Bool} {a x : α} :
    ∀ {l : List α}, x ∈ insertSorted le a l ↔ x = a ∨ x ∈ l := by
  intro l
  induction l with
  | nil => simp [insertSorted]
  | cons b bs ih =>
    by_cases h : le a b
    · simp [insertSorted, h]
    · simp [insertSorted, h, ih]
      tauto

/-- Sorting permutes membership. -/
theorem mem_sortBy {α : Type} {le : α → α → Bool} {x : α} :
    ∀ {l : List α}, x ∈ sortBy le l ↔ x ∈ l := by
  intro l
  induction l with
  | nil => simp [sortBy]
  | cons a as ih => simp [sortBy, mem_insertSorted, ih]

/-- Members of an ordered, paginated result come from the unsorted
candidate list. -/
theorem mem_of_limit_sort {α : Type} {lim off : Int} {le : α → α → Bool}
    {l : List α} {x : α}
    (hx : x ∈ applyLimitOffset lim off (sortBy le l)) : x ∈ l := by
  have h2 : x ∈ (sortBy le l).drop off.toNat := List.take_subset _ _ hx
  have h3 : x ∈ sortBy le l := List.drop_subset _ _ h2
  exact mem_sortBy.1 h3

/-- Outcome analysis of the shared zero-row check of the lexical,
fuzzy and semantic searches. -/
theorem ifEmpty_spec (records : List Record) (msg : String) :
    ((∃ e, (if records.isEmpty then
              (.error (.runtimeError msg) : Except PyError (List NoteEntity))
            else .ok (records.map NoteEntity.from_record)) = .error e)
        ↔ records = [])
    ∧ ∀ l, (if records.isEmpty then
              (.error (.runtimeError msg) : Except PyError (List NoteEntity))
            else .ok (records.map NoteEntity.from_record)) = .ok l →
        l = records.map NoteEntity.from_record ∧ l.length = records.length := by
  cases records with
  | nil => simp
  | cons a as =>
    constructor
    · simp
    · intro l hl
      simp at hl
      simp [← hl]

/-- A WHERE filter on note.embedding by note id alone is the id test. -/
theorem embRowMatch_noteId (r : EmbeddingRow) (n : Int) :
    rowMatches r.col [("note_id", .vInt n)] = (r.note_id == n) := by
  show ((r.note_id == n) && true) = (r.note_id == n)
  exact Bool.and_true _

/-- Unfolding of a facade insert whose input carries no embeddings: the
content row is written under the next serial id, one embedding row is
generated and written exactly when the content is truthy, one
permission row per supplied permission is written with the captured id,
and the returned entity mirrors the persisted rows. -/
theorem facadeInsert_spec (g : EmbeddingGenerator) (s : Store) (note : NoteEntity)
    (hemb : note.embeddings = .val [] ∨ note.embeddings = .undefined) :
    facadeInsert g s note =
      ({ contents := s.contents ++
            [⟨s.nextId, note.title, note.content, note.author_id, note.updated_at⟩],
         embeddings :=
           if note.content.truthy then
             s.embeddings ++ [⟨s.nextId, g.model_name,
               g.generateStr (note.embTitle ++ "\n" ++ note.content.pyStr)⟩]
           else s.embeddings,
         permissions := s.permissions ++
           note.permsOrEmpty.map (fun p => ⟨s.nextId, p.role_id⟩),
         nextId := s.nextId + 1 },
       .ok { note with
              note_id := (.vInt s.nextId : Value),
              embeddings := .val
                (if note.content.truthy then
                  [⟨.vInt s.nextId, .vStr g.model_name,
                    g.str_vec_to_list
                      (g.generateStr (note.embTitle ++ "\n" ++ note.content.pyStr))⟩]
                 else []),
              permissions := .val (note.permsOrEmpty.map
                (fun p => { p with note_id := (.vInt s.nextId : Value) })) }) := by
  obtain ⟨nid, ti, ua, au, co, em, pe⟩ := note
  rcases hemb with h | h <;> subst h <;>
    cases pe <;> by_cases hc : co.truthy <;>
      simp [facadeInsert, NoteEntity.permsOrEmpty, NoteEntity.embTitle, hc,
            embeddingRepoInsert, perm_foldl_append]

/-- Fetching a note through the facade from a store whose last content
row and last embedding row were just written under a fresh id yields
that row with exactly that embedding attached. -/
theorem facadeSelectById_fresh (cs : List ContentRow) (es : List EmbeddingRow)
    (ps : List PermissionRow) (nid nxt : Int) (row : ContentRow) (er : EmbeddingRow)
    (hrow : row.id = nid) (her : er.note_id = nid)
    (hfc : ∀ c ∈ cs, c.id ≠ nid) (hfe : ∀ r ∈ es, r.note_id ≠ nid) :
    facadeSelectById ⟨cs ++ [row], es ++ [er], ps, nxt⟩ nid =
      .ok (some
        { note_id := .vInt row.id, title := row.title, content := row.content,
          updated_at := row.updated_at, author_id := row.author_id,
          embeddings := .val [⟨.vInt er.note_id, .vStr er.model, .vStr er.embedding⟩],
          permissions := .val (permissionRepoSelect ⟨cs ++ [row], es ++ [er], ps, nxt⟩
                                ⟨.vInt nid, .vUndefined⟩) }) := by
  have hfind : (cs ++ [row]).find? (fun r => r.id == nid) = some row := by
    rw [find?_append_of_none (fun c hcm => beq_eq_false_iff_ne.2 (hfc c hcm))]
    simp [List.find?_cons, hrow]
  have hfilter : (es ++ [er]).filter
      (fun r => rowMatches r.col [("note_id", (.vInt nid : Value))]) = [er] := by
    rw [List.filter_append,
        List.filter_eq_nil_iff.2
          (fun r hr => by simp [embRowMatch_noteId, hfe r hr]),
        List.nil_append]
    simp [List.filter_cons, embRowMatch_noteId, her]
  unfold facadeSelectById contentRepoSelectById
  rw [hfind]
  simp only [NoteEntity.truthy, if_true]
  unfold embeddingRepoSelect
  simp [asdictFields, asdictInner, Value.isUndefined, hfilter]

/-! ## Claim theorems -/

/-- C1: for every non-empty set-field map and non-empty where-field map
given to Table.update — with at most 97 set fields, past which the
placeholder generator range(1, 100) is exhausted and a StopIteration
escapes before any SQL text exists — the submitted statement numbers
its WHERE placeholders from len(set_fields)+1 contiguously, so they
never collide with the SET placeholders $1..$len(set_fields), and binds
the set values followed by the where values in that order. -/
theorem update_where_placeholder_indices (name : String)
    (set_fields where_fields : List (String × Value))
    (hs : set_fields ≠ []) (hw : where_fields ≠ [])
    (hn : set_fields.length ≤ 97) :
    tableUpdate name set_fields where_fields "*" =
      .ok ("UPDATE " ++ name ++ " \n" ++ "SET " ++ updateSetClause set_fields ++ " \n"
            ++ "WHERE "
            ++ create_where_statement (where_fields.map Prod.fst) (set_fields.length + 1)
            ++ "\n" ++ "RETURNING * \n",
          set_fields.map Prod.snd ++ where_fields.map Prod.snd)
    ∧ (wherePairs (where_fields.map Prod.fst) (set_fields.length + 1)).map Prod.fst
        = List.range' (set_fields.length + 1) where_fields.length
    ∧ (∀ i ∈ (wherePairs (where_fields.map Prod.fst) (set_fields.length + 1)).map Prod.fst,
        set_fields.length + 1 ≤ i)
    ∧ ((List.range' 1 set_fields.length).zip (set_fields.map Prod.fst)).map Prod.fst
        = List.range' 1 set_fields.length := by
  refine ⟨?_, ?_, ?_, ?_⟩
  · unfold tableUpdate
    rw [if_pos (by omega)]
    rfl
  · rw [wherePairs_map_fst]
    simp
  · intro i hi
    rw [wherePairs_map_fst] at hi
    simp only [List.length_map] at hi
    have := List.mem_range'_1.1 hi
    omega
  · exact List.map_fst_zip _ _ (by simp)

/-- C1 witness: a one-field set map with a one-field where map yields
the statement with the WHERE placeholder starting at $2. -/
theorem update_where_placeholder_indices_witness :
    tableUpdate "t" [("a", .vInt 1)] [("id", .vInt 2)] "*" =
      .ok ("UPDATE t \nSET a=$1 \nWHERE id=$2 \nRETURNING * \n",
           [.vInt 1, .vInt 2]) :=
  (update_where_placeholder_indices "t" [("a", .vInt 1)] [("id", .vInt 2)]
    (by simp) (by simp) (by decide)).1

/-- C3 counterexample: Table.update with a non-empty set map and the
empty where dict performs no validation and submits an UPDATE statement
with an empty WHERE clause to the store (the ok result is the submitted
statement and bound values), instead of raising a typed failure before
the store is reached. -/
theorem update_empty_where_reaches_store :
    tableUpdate "note.content" [("title", .vStr "x")] [] "*" =
      .ok ("UPDATE note.content \nSET title=$1 \nWHERE \nRETURNING * \n",
           [.vStr "x"]) := rfl

/-- C3 amended: select and delete with the empty where dict fail the
bare assertion (AssertionError, not a ConfigurationError or
ValidationError class, which the code base does not define) before any
statement reaches the store, while update with the empty where dict
submits a statement whose WHERE clause is empty. -/
theorem empty_where_map_behaviour (name : String) (set_fields : List (String × Value))
    (h : set_fields.length ≤ 97) :
    tableSelect name none none none none (some []) "*" = .error .assertionError
    ∧ tableDelete name none none (some []) = .error .assertionError
    ∧ tableUpdate name set_fields [] "*" =
        .ok ("UPDATE " ++ name ++ " \n" ++ "SET " ++ updateSetClause set_fields ++ " \n"
              ++ "WHERE " ++ create_where_statement [] (set_fields.length + 1) ++ "\n"
              ++ "RETURNING * \n",
             set_fields.map Prod.snd)
    ∧ create_where_statement [] (set_fields.length + 1) = "" := by
  refine ⟨rfl, rfl, ?_, rfl⟩
  unfold tableUpdate
  rw [if_pos (by omega)]
  simp

/-- C3 witness: concrete empty-where calls on the three operations. -/
theorem empty_where_map_behaviour_witness :
    tableSelect "t" none none none none (some []) "*" = .error .assertionError
    ∧ tableUpdate "t" [("a", .vInt 1)] [] "*" =
        .ok ("UPDATE t \nSET a=$1 \nWHERE \nRETURNING * \n", [.vInt 1]) :=
  ⟨(empty_where_map_behaviour "t" [("a", .vInt 1)] (by decide)).1,
   (empty_where_map_behaviour "t" [("a", .vInt 1)] (by decide)).2.2.1⟩

/-- C8, the code evaluated at the failing inputs: the no-search default
discriminator selects the semantic ContextNoteSearchStrategy, which is
not the recency DateNoteSearchStrategy; the lexical branch names a
class search_strategy.py does not define; a value outside the
enumeration raises ValueError. -/
theorem searchNotes_dispatch_eval :
    searchNotesSelectedClass (some .NO_SEARCH) = .ok .contextStrategy
    ∧ StrategyClass.contextStrategy ≠ StrategyClass.dateStrategy
    ∧ searchNotesSelectedClass (some .FULL_TEXT_TITLE) =
        .error (.nameError "TitleLexemeNoteSearchStrategy")
    ∧ searchNotesSelectedClass (some .FUZZY) = .ok .fuzzyStrategy
    ∧ searchNotesSelectedClass (some .CONTEXT) = .ok .contextStrategy
    ∧ searchNotesSelectedClass none = .error (.valueError "Unknown SearchType") :=
  ⟨rfl, by decide, rfl, rfl, rfl, rfl⟩

/-- C10 counterexample: at the FULL_TEXT_TITLE discriminator the
construction fails with a NameError — TitleLexemeNoteSearchStrategy is
defined nowhere — not with a missing-argument TypeError, so the claim
as stated fails for that discriminator value. -/
theorem searchNotes_fullTextTitle_name_error :
    searchNotesConstruct (some .FULL_TEXT_TITLE) =
      .error (.nameError "TitleLexemeNoteSearchStrategy")
    ∧ isTypeErrorResult (searchNotesConstruct (some .FULL_TEXT_TITLE)) = false :=
  ⟨rfl, rfl⟩

/-- C10 amended: search_notes supplies only db, query, limit and offset
— never user_id, which every strategy init requires — so construction
fails for every discriminator value before any store access: with a
missing-user_id TypeError for NO_SEARCH, FUZZY and CONTEXT, and with a
NameError for FULL_TEXT_TITLE, whose branch names an undefined class. -/
theorem searchNotes_construct_always_fails :
    searchNotesConstruct (some .NO_SEARCH) =
      .error (.typeError "missing required arguments: user_id")
    ∧ searchNotesConstruct (some .FULL_TEXT_TITLE) =
      .error (.nameError "TitleLexemeNoteSearchStrategy")
    ∧ searchNotesConstruct (some .FUZZY) =
      .error (.typeError "missing required arguments: user_id")
    ∧ searchNotesConstruct (some .CONTEXT) =
      .error (.typeError "missing required arguments: user_id")
    ∧ "user_id" ∈ noteSearchStrategyInitParams
    ∧ "user_id" ∉ commonInitParameters :=
  ⟨rfl, rfl, rfl, rfl, by decide, by decide⟩

/-- C2: the entity-to-field-map conversion drops exactly the
Unspecified (UNDEFINED) fields: the result holds no UNDEFINED value;
every field with any other value — null included — appears exactly once
under its name, bound to its recursively converted value; null and
scalars convert to themselves, and the conversion recurses elementwise
through sequences and entrywise (again dropping UNDEFINED values)
through mappings. The field names of a Python dataclass are distinct,
hence the Nodup hypothesis. -/
theorem asdict_spec (fs : List (String × Value))
    (hnd : (fs.map Prod.fst).Nodup) :
    asdict (.vDataclass fs) = .ok (asdictFields fs)
    ∧ (∀ p ∈ asdictFields fs, p.2 ≠ Value.vUndefined)
    ∧ (∀ k v, (k, v) ∈ fs → v ≠ Value.vUndefined →
        ((k, asdictInner v) ∈ asdictFields fs
          ∧ ∀ w, (k, w) ∈ asdictFields fs → w = asdictInner v))
    ∧ (∀ k, (k, Value.vUndefined) ∈ fs → ∀ w, (k, w) ∉ asdictFields fs)
    ∧ asdictInner Value.vNone = Value.vNone
    ∧ (∀ n : Int, asdictInner (.vInt n) = .vInt n)
    ∧ (∀ str : String, asdictInner (.vStr str) = .vStr str)
    ∧ (∀ xs : List Value, asdictInner (.vList xs) = .vList (xs.map asdictInner))
    ∧ (∀ gs : List (String × Value), asdictInner (.vDict gs) = .vDict (asdictDict gs)) := by
  have hkeys : ((asdictFields fs).map Prod.fst).Nodup :=
    (asdictFields_keys_sublist fs).nodup hnd
  refine ⟨rfl, ?_, ?_, ?_, rfl, fun _ => rfl, fun _ => rfl, ?_, fun _ => rfl⟩
  · intro p hp
    rw [asdictFields_eq] at hp
    obtain ⟨q, hq, rfl⟩ := List.mem_map.1 hp
    have hqf := (List.mem_filter.1 hq).2
    have : q.2.isUndefined = false := by simpa using hqf
    exact asdictInner_ne_undefined q.2 (isUndefined_eq_false_iff.1 this)
  · intro k v hmem hv
    have hin : (k, asdictInner v) ∈ asdictFields fs := by
      rw [asdictFields_eq]
      refine List.mem_map.2 ⟨(k, v), List.mem_filter.2 ⟨hmem, ?_⟩, rfl⟩
      simpa using isUndefined_eq_false_iff.2 hv
    exact ⟨hin, fun w hw => assoc_nodup_unique hkeys hw hin⟩
  · intro k hk w hw
    rw [asdictFields_eq] at hw
    obtain ⟨q, hq, hqe⟩ := List.mem_map.1 hw
    have hq1 : q.1 = k := congrArg Prod.fst hqe
    have hqmem : (k, q.2) ∈ fs := by
      have : (k, q.2) = q := by rw [← hq1]
      rw [this]
      exact (List.mem_filter.1 hq).1
    have heq : Value.vUndefined = q.2 := assoc_nodup_unique hnd hk hqmem
    have hqf : q.2.isUndefined = false := by simpa using (List.mem_filter.1 hq).2
    rw [← heq] at hqf
    exact Bool.noConfusion hqf
  · intro xs
    rw [show asdictInner (.vList xs) = .vList (asdictList xs) from rfl, asdictList_eq]

/-- C2 witness: a dataclass with an Unspecified, a Present and a null
field converts to the map holding exactly the latter two. -/
theorem asdict_spec_witness :
    asdict (.vDataclass
      [("note_id", .vUndefined), ("title", .vStr "t"), ("content", .vNone)]) =
      .ok [("title", .vStr "t"), ("content", .vNone)] :=
  (asdict_spec
    [("note_id", .vUndefined), ("title", .vStr "t"), ("content", .vNone)]
    (by decide)).1

/-- C6: each of the lexical, fuzzy and semantic strategies raises its
RuntimeError — the SearchFailure — exactly when the store round-trip
returns zero rows, and on one or more rows returns exactly one entity
per returned row, in order, without raising. -/
theorem search_failure_iff_zero_rows
    (fetch : List Value → List Record) (g : EmbeddingGenerator)
    (q : String) (uid : Int) :
    ((∃ e, webSearch fetch q uid = .error e)
        ↔ fetch [.vStr q, .vInt uid] = [])
    ∧ (∀ l, webSearch fetch q uid = .ok l →
        l = (fetch [.vStr q, .vInt uid]).map NoteEntity.from_record
        ∧ l.length = (fetch [.vStr q, .vInt uid]).length)
    ∧ ((∃ e, fuzzySearch fetch q uid = .error e)
        ↔ fetch [.vStr q, .vInt uid] = [])
    ∧ (∀ l, fuzzySearch fetch q uid = .ok l →
        l = (fetch [.vStr q, .vInt uid]).map NoteEntity.from_record
        ∧ l.length = (fetch [.vStr q, .vInt uid]).length)
    ∧ ((∃ e, contextSearch g fetch q = .error e)
        ↔ fetch [.vStr (g.generateStr q), .vStr MINI_LM_L6_V2] = [])
    ∧ (∀ l, contextSearch g fetch q = .ok l →
        l = (fetch [.vStr (g.generateStr q), .vStr MINI_LM_L6_V2]).map
              NoteEntity.from_record
        ∧ l.length = (fetch [.vStr (g.generateStr q), .vStr MINI_LM_L6_V2]).length) :=
  ⟨(ifEmpty_spec (fetch [.vStr q, .vInt uid])
      "Failed to fetch notes by exact title.").1,
   (ifEmpty_spec (fetch [.vStr q, .vInt uid])
      "Failed to fetch notes by exact title.").2,
   (ifEmpty_spec (fetch [.vStr q, .vInt uid])
      "Failed to fetch notes by fuzzy title/content.").1,
   (ifEmpty_spec (fetch [.vStr q, .vInt uid])
      "Failed to fetch notes by fuzzy title/content.").2,
   (ifEmpty_spec (fetch [.vStr (g.generateStr q), .vStr MINI_LM_L6_V2])
      "Failed to fetch notes by context.").1,
   (ifEmpty_spec (fetch [.vStr (g.generateStr q), .vStr MINI_LM_L6_V2])
      "Failed to fetch notes by context.").2⟩

/-- C6 witness: a store returning zero rows makes the lexical search
fail, and a one-row store round-trip yields a one-entity result. -/
theorem search_failure_iff_zero_rows_witness :
    (∃ e, webSearch (fun _ => []) "q" 0 = .error e)
    ∧ ([NoteEntity.from_record [("id", Value.vInt 7)]].length
        = [([("id", Value.vInt 7)] : Record)].length) :=
  ⟨(search_failure_iff_zero_rows (fun _ => []) testGen "q" 0).1.mpr rfl,
   ((search_failure_iff_zero_rows (fun _ => [[("id", Value.vInt 7)]]) testGen "q" 0).2.1
      ([[("id", Value.vInt 7)]].map NoteEntity.from_record) rfl).2⟩

/-- C7: every strategy scopes its results to the requesting user. Run
against the store semantics of its query, any entity in a successful
result of the recency, lexical, fuzzy or semantic search carries the
author id the strategy was constructed with, whatever the store holds
and whatever the black-box match, rank, similarity and distance
functions of the engine return. -/
theorem strategies_author_scoped (s : Store) (q : String) (uid lim off : Int)
    (g : EmbeddingGenerator)
    (tsMatch : String → ContentRow → Bool) (tsRank : String → ContentRow → Int)
    (similarity : String → ContentRow → Int) (dist : String → String → Int) :
    (∀ l, dateSearch (dateQueryExec s lim off) uid = .ok l →
        ∀ e ∈ l, e.author_id = .vInt uid)
    ∧ (∀ l, webSearch (webQueryExec s lim off tsMatch tsRank) q uid = .ok l →
        ∀ e ∈ l, e.author_id = .vInt uid)
    ∧ (∀ l, fuzzySearch (fuzzyQueryExec s lim off similarity) q uid = .ok l →
        ∀ e ∈ l, e.author_id = .vInt uid)
    ∧ (∀ l, contextSearch g (contextQueryExec s uid lim off dist) q = .ok l →
        ∀ e ∈ l, e.author_id = .vInt uid) := by
  refine ⟨?_, ?_, ?_, ?_⟩
  · intro l hl e he
    by_cases hrows : (dateQueryExec s lim off [.vInt uid]).isEmpty
    · simp [dateSearch, hrows] at hl
      subst hl
      cases he
    · simp [dateSearch, hrows] at hl
      subst hl
      obtain ⟨rec, hrec, rfl⟩ := List.mem_map.1 he
      obtain ⟨c, hc, rfl⟩ := List.mem_map.1 hrec
      have hmem := mem_of_limit_sort hc
      have hcond := (List.mem_filter.1 hmem).2
      exact sqlEq_vInt hcond
  · intro l hl e he
    by_cases hrows :
        (webQueryExec s lim off tsMatch tsRank [.vStr q, .vInt uid]).isEmpty
    · simp [webSearch, hrows] at hl
    · simp [webSearch, hrows] at hl
      subst hl
      obtain ⟨rec, hrec, rfl⟩ := List.mem_map.1 he
      obtain ⟨c, hc, rfl⟩ := List.mem_map.1 hrec
      have hmem := mem_of_limit_sort hc
      have hcond := (List.mem_filter.1 hmem).2
      rw [Bool.and_eq_true] at hcond
      exact sqlEq_vInt hcond.1
  · intro l hl e he
    by_cases hrows :
        (fuzzyQueryExec s lim off similarity [.vStr q, .vInt uid]).isEmpty
    · simp [fuzzySearch, hrows] at hl
    · simp [fuzzySearch, hrows] at hl
      subst hl
      obtain ⟨rec, hrec, rfl⟩ := List.mem_map.1 he
      obtain ⟨c, hc, rfl⟩ := List.mem_map.1 hrec
      have hmem := mem_of_limit_sort hc
      have hcond := (List.mem_filter.1 hmem).2
      exact sqlEq_vInt hcond
  · intro l hl e he
    by_cases hrows :
        (contextQueryExec s uid lim off dist
          [.vStr (g.generateStr q), .vStr MINI_LM_L6_V2]).isEmpty
    · simp [contextSearch, hrows] at hl
    · simp [contextSearch, hrows] at hl
      subst hl
      obtain ⟨rec, hrec, rfl⟩ := List.mem_map.1 he
      obtain ⟨p, hp, rfl⟩ := List.mem_map.1 hrec
      have hmem := mem_of_limit_sort hp
      obtain ⟨emb, hemb, hpc⟩ := List.mem_flatMap.1 hmem
      obtain ⟨c, hc, rfl⟩ := List.mem_map.1 hpc
      have hcond := (List.mem_filter.1 hc).2
      rw [Bool.and_eq_true, Bool.and_eq_true] at hcond
      exact sqlEq_vInt hcond.2

/-- Content row, store and id used to evaluate the claims on concrete
inputs. -/
def witnessRow : ContentRow := ⟨1, .vStr "t", .vStr "c", .vInt 5, .vInt 0⟩

/-- C7 witness: a recency search on a one-note store owned by user 5
returns that note, whose author id is 5. -/
theorem strategies_author_scoped_witness :
    (NoteEntity.from_record (ContentRow.record witnessRow)).author_id = .vInt 5 :=
  (strategies_author_scoped ⟨[witnessRow], [], [], 2⟩ "q" 5 10 0 testGen
      (fun _ _ => true) (fun _ _ => 0) (fun _ _ => 0) (fun _ _ => 0)).1
    [NoteEntity.from_record (ContentRow.record witnessRow)] rfl
    (NoteEntity.from_record (ContentRow.record witnessRow))
    (List.mem_singleton.mpr rfl)

/-- C4 counterexample: a note whose caller-supplied embeddings list is
non-empty is not ignored or overwritten — the insert fails the
embeddings assertion (the content row is already written at that
point), so the fixed protocol does not hold for every input note. -/
theorem facade_insert_rejects_caller_embeddings :
    (facadeInsert testGen ⟨[], [], [], 1⟩
      { note_id := .vUndefined, title := .vStr "t", updated_at := .vInt 0,
        author_id := .vInt 5, content := .vStr "c",
        embeddings := .val [⟨.vInt 1, .vStr "m", .vStr "x"⟩],
        permissions := .undefined }).2 = .error .assertionError := rfl

/-- C4 amended: for every input note whose embeddings field is the
empty list or Unspecified — any other value fails an assertion instead
of being ignored — the facade insert follows the fixed protocol: the
content row is written under the store-assigned id; exactly one
embedding row is generated (by the injected default-model generator)
and written when and only when the content value is truthy; one
permission row per supplied permission is written, each stamped with
the captured note id; and the returned note carries the id and mirrors
exactly the persisted embeddings and permissions. -/
theorem facade_insert_protocol (g : EmbeddingGenerator) (s : Store) (note : NoteEntity)
    (hemb : note.embeddings = .val [] ∨ note.embeddings = .undefined) :
    facadeInsert g s note =
      ({ contents := s.contents ++
            [⟨s.nextId, note.title, note.content, note.author_id, note.updated_at⟩],
         embeddings :=
           if note.content.truthy then
             s.embeddings ++ [⟨s.nextId, g.model_name,
               g.generateStr (note.embTitle ++ "\n" ++ note.content.pyStr)⟩]
           else s.embeddings,
         permissions := s.permissions ++
           note.permsOrEmpty.map (fun p => ⟨s.nextId, p.role_id⟩),
         nextId := s.nextId + 1 },
       .ok { note with
              note_id := (.vInt s.nextId : Value),
              embeddings := .val
                (if note.content.truthy then
                  [⟨.vInt s.nextId, .vStr g.model_name,
                    g.str_vec_to_list
                      (g.generateStr (note.embTitle ++ "\n" ++ note.content.pyStr))⟩]
                 else []),
              permissions := .val (note.permsOrEmpty.map
                (fun p => { p with note_id := (.vInt s.nextId : Value) })) }) :=
  facadeInsert_spec g s note hemb

/-- Note used to evaluate the facade insert on a concrete input. -/
def witnessNote : NoteEntity :=
  { note_id := .vUndefined, title := .vStr "t", updated_at := .vInt 0,
    author_id := .vInt 5, content := .vStr "c",
    embeddings := .val [], permissions := .val [⟨.vUndefined, .vInt 9⟩] }

/-- C4 witness: inserting a concrete note with content "c" and one
permission writes the three rows and returns the mirroring entity. -/
theorem facade_insert_protocol_witness :
    facadeInsert testGen ⟨[], [], [], 1⟩ witnessNote =
      ({ contents := [⟨1, .vStr "t", .vStr "c", .vInt 5, .vInt 0⟩],
         embeddings := [⟨1, MINI_LM_L6_V2, "[t\nc]"⟩],
         permissions := [⟨1, .vInt 9⟩],
         nextId := 2 },
       .ok { note_id := .vInt 1, title := .vStr "t", updated_at := .vInt 0,
             author_id := .vInt 5, content := .vStr "c",
             embeddings := .val [⟨.vInt 1, .vStr MINI_LM_L6_V2, .vList []⟩],
             permissions := .val [⟨.vInt 1, .vInt 9⟩] }) :=
  facade_insert_protocol testGen ⟨[], [], [], 1⟩ witnessNote (Or.inl rfl)

/-- C5: inserting a note whose content value is truthy (non-empty text)
through the facade — its embeddings field empty or Unspecified, which
the facade insert asserts — and then fetching by the assigned id
succeeds and yields a note with exactly one embedding entry whose model
is the model name of the injected default embedding generator. The
freshness hypotheses state that the serial id the store assigns does
not occur in the pre-existing rows. -/
theorem insert_then_select_by_id_roundtrip (g : EmbeddingGenerator) (s : Store)
    (note : NoteEntity)
    (hc : note.content.truthy = true)
    (hemb : note.embeddings = .val [] ∨ note.embeddings = .undefined)
    (hfc : ∀ c ∈ s.contents, c.id ≠ s.nextId)
    (hfe : ∀ r ∈ s.embeddings, r.note_id ≠ s.nextId) :
    ∃ note₁ full emb,
      (facadeInsert g s note).2 = .ok note₁
      ∧ note₁.note_id = .vInt s.nextId
      ∧ facadeSelectById (facadeInsert g s note).1 s.nextId = .ok (some full)
      ∧ full.embeddings = .val [emb]
      ∧ emb.model = .vStr g.model_name := by
  rw [facadeInsert_spec g s note hemb, if_pos hc, if_pos hc]
  have hsel := facadeSelectById_fresh s.contents s.embeddings
    (s.permissions ++ note.permsOrEmpty.map (fun p => ⟨s.nextId, p.role_id⟩))
    s.nextId (s.nextId + 1)
    ⟨s.nextId, note.title, note.content, note.author_id, note.updated_at⟩
    ⟨s.nextId, g.model_name,
      g.generateStr (note.embTitle ++ "\n" ++ note.content.pyStr)⟩
    rfl rfl hfc hfe
  exact ⟨_, _, _, rfl, rfl, hsel, rfl, rfl⟩

/-- C5 witness: the round trip on an empty store with a concrete note
of content "c" yields one embedding carrying the default model name. -/
theorem insert_then_select_by_id_roundtrip_witness :
    ∃ note₁ full emb,
      (facadeInsert testGen ⟨[], [], [], 1⟩ witnessNote).2 = .ok note₁
      ∧ note₁.note_id = .vInt 1
      ∧ facadeSelectById (facadeInsert testGen ⟨[], [], [], 1⟩ witnessNote).1 1
          = .ok (some full)
      ∧ full.embeddings = .val [emb]
      ∧ emb.model = .vStr MINI_LM_L6_V2 :=
  insert_then_select_by_id_roundtrip testGen ⟨[], [], [], 1⟩ witnessNote rfl
    (Or.inl rfl) (fun c hcm => absurd hcm (List.not_mem_nil c))
    (fun r hrm => absurd hrm (List.not_mem_nil r))

/-- C9 counterexample: on a store with no content rows the facade fetch
of id 1 raises the content-repo RuntimeError instead of returning an
empty result — the claimed empty-result behaviour at the facade layer
does not hold. -/
theorem facade_select_by_id_raises_when_missing :
    facadeSelectById ⟨[], [], [], 1⟩ 1 =
      .error (.runtimeError "Note with ID 1 not found") := rfl

/-- C9 amended: when no content row matches the id, the content-repo
select raises the NotFound RuntimeError and the facade propagates it
unchanged (its empty-result branch is unreachable, a found entity being
always truthy); when a row matches, the facade separately fetches the
embeddings and permissions of the note and attaches them. -/
theorem facade_select_by_id_spec (s : Store) (note_id : Int) :
    (s.contents.find? (fun r => r.id == note_id) = none →
      facadeSelectById s note_id =
        .error (.runtimeError ("Note with ID " ++ toString note_id ++ " not found"))
      ∧ contentRepoSelectById s note_id =
        .error (.runtimeError ("Note with ID " ++ toString note_id ++ " not found")))
    ∧ (∀ r, s.contents.find? (fun c => c.id == note_id) = some r →
      facadeSelectById s note_id = .ok (some
        { note_id := .vInt r.id, title := r.title, content := r.content,
          updated_at := r.updated_at, author_id := r.author_id,
          embeddings := .val (embeddingRepoSelect s ⟨.vInt note_id, .vUndefined, .vUndefined⟩),
          permissions := .val (permissionRepoSelect s ⟨.vInt note_id, .vUndefined⟩) })) := by
  constructor
  · intro hnone
    unfold facadeSelectById contentRepoSelectById
    rw [hnone]
    exact ⟨rfl, rfl⟩
  · intro r hsome
    unfold facadeSelectById contentRepoSelectById
    rw [hsome]
    rfl

/-- C9 witness: concrete stores for both branches — an empty store
propagates the RuntimeError, a one-row store yields the attached
entity. -/
theorem facade_select_by_id_spec_witness :
    (facadeSelectById ⟨[], [], [], 1⟩ 2 =
        .error (.runtimeError "Note with ID 2 not found"))
    ∧ facadeSelectById ⟨[witnessRow], [], [], 2⟩ 1 = .ok (some
        { note_id := .vInt 1, title := .vStr "t", content := .vStr "c",
          updated_at := .vInt 0, author_id := .vInt 5,
          embeddings := .val [], permissions := .val [] }) :=
  ⟨((facade_select_by_id_spec ⟨[], [], [], 1⟩ 2).1 rfl).1,
   (facade_select_by_id_spec ⟨[witnessRow], [], [], 2⟩ 1).2 witnessRow rfl⟩

end NotesBackend
